import Mathlib

/-!
# Verification of the warexlogistics synchronization and persistence layer

A shallow embedding of the core data layer of the courier-operations
back office: the entity store (orders, runs, run_orders, api_log,
driver tokens), the sync orchestrator (`DataManager`), and the driver
authentication decorators, together with theorems settling the frozen
claims about that layer.

Conventions of the embedding:
* SQL tables become Lean lists of records; `INSERT OR REPLACE` becomes a
  filter-and-append upsert keyed on the primary key; `UPDATE ... WHERE`
  becomes a `List.map` guarded on the key.
* Timestamps are natural numbers (ISO-8601 strings compare
  lexicographically, which agrees with chronological order, so `Nat`
  with `<`/`≤` is a faithful abstraction of both the SQL string
  comparisons and the Python `datetime` comparisons).
* Randomness (`random.randint`, `secrets.token_hex`) is passed in as an
  explicit argument: a draw for the order id, and a stream of draws for
  tracking-number candidates.
* A raised exception (`RuntimeError` in `_generate_tracking_number`)
  becomes `Option.none`.
-/

namespace Warex

/-- A row of the `orders` table (`local_store.py`, `_create_tables` plus
the `_migrate` columns).  Only the columns that the claims mention are
modelled; `tracking_number` is `Option` because the WebPlatform schema
stores no tracking number (column absent / NULL). -/
structure OrderRec where
  order_id : String
  tracking_number : Option String
  customer : String
  address : String
  suburb : String
  postcode : String
  status : String
  service_level : String
  parcels : Nat
  driver_id : Option String
  pushed_to_wms : Bool
  wms_response : Option String
  delivery_notes : Option String
  proof_photo : Option String
  proof_signature : Option String
  delivered_at : Option Nat
  created_at : Nat
  updated_at : Nat
  deriving Repr, DecidableEq

/-- A row of the `runs` table.  `completed` is an `Int` because the
store writes whatever integer the caller supplies. -/
structure RunRec where
  run_id : String
  zone : String
  driver_id : String
  driver_name : String
  status : String
  total_stops : Nat
  completed : Int
  updated_at : Nat
  deriving Repr, DecidableEq

/-- A row of the `run_orders` link table. -/
structure RunOrderRec where
  run_id : String
  order_id : String
  stop_sequence : Nat
  deriving Repr, DecidableEq

/-- A row of the `api_log` table.  The free-text fields are lists of
characters so that truncation is `List.take`. -/
structure ApiLogRec where
  timestamp : Nat
  operation : String
  endpoint : String
  request_summary : Option (List Char)
  success : Bool
  status_code : Option Int
  response_body : Option (List Char)
  error_message : Option String
  deriving Repr, DecidableEq

/-- The durable entity store (the tables the claims are about). -/
structure Store where
  orders : List OrderRec
  runs : List RunRec
  runOrders : List RunOrderRec
  apiLog : List ApiLogRec
  deriving Repr, DecidableEq, Inhabited

def Store.empty : Store := ⟨[], [], [], []⟩

/-- Result shape of a WMS gateway call:
`{ success, status_code?, response?, error? }` (spec §6). -/
structure WmsResult where
  success : Bool
  status_code : Option Int
  response : String
  error : Option String
  deriving Repr, DecidableEq

/-- `LocalStore.update_order_status`: sets `status` (and `driver_id`
when one is supplied) and stamps `updated_at`, on every row whose
`order_id` matches. -/
def updateOrderStatus (oid status : String) (driver : Option String) (now : Nat)
    (st : Store) : Store :=
  { st with orders := st.orders.map fun o =>
      if o.order_id = oid then
        { o with
            status := status
            driver_id := match driver with | some d => some d | none => o.driver_id
            updated_at := now }
      else o }

/-- `LocalStore.log_api_call` (SQLite backend): appends one record,
truncating the request summary to 500 characters and the response body
to 2000; an empty/missing text becomes NULL. -/
def logApiCall (now : Nat) (operation endpoint : String) (summary : List Char)
    (success : Bool) (code : Option Int) (body : Option (List Char))
    (err : Option String) (st : Store) : Store :=
  { st with apiLog := st.apiLog ++
      [{ timestamp := now
         operation := operation
         endpoint := endpoint
         request_summary := if summary.isEmpty then none else some (summary.take 500)
         success := success
         status_code := code
         response_body := match body with
           | none => none
           | some b => if b.isEmpty then none else some (b.take 2000)
         error_message := err }] }

inductive CancelOutcome where
  | gatewayFailure (r : WmsResult)
  | ok
  deriving Repr, DecidableEq

/-- `DataManager.cancel_order` (identical in `DriverAPI/data/data_manager.py`
and `WebPlatform/data/data_manager.py`): when the WMS gateway is
configured (`is_live`), push the cancellation, log the attempt, and on
gateway failure return the gateway result without touching the order;
otherwise mark the order `failed` locally. -/
def cancelOrder (isLive : Bool) (gw : WmsResult) (baseUrl : String) (now : Nat)
    (oid : String) (st : Store) : CancelOutcome × Store :=
  if isLive then
    let st1 := logApiCall now "CancelSalesOrder" (baseUrl ++ "/CancelSalesOrder/")
      ("Cancel order " ++ oid).data gw.success gw.status_code
      (some gw.response.data) gw.error st
    if gw.success then (.ok, updateOrderStatus oid "failed" none now st1)
    else (.gatewayFailure gw, st1)
  else (.ok, updateOrderStatus oid "failed" none now st)

def sampleOrder : OrderRec :=
  { order_id := "SMC-12345"
    tracking_number := some "WRX-2602-A3F7B1"
    customer := "Jane Doe"
    address := "1 King St"
    suburb := "Surry Hills"
    postcode := "2010"
    status := "pending"
    service_level := "standard"
    parcels := 2
    driver_id := none
    pushed_to_wms := false
    wms_response := none
    delivery_notes := none
    proof_photo := none
    proof_signature := none
    delivered_at := none
    created_at := 0
    updated_at := 0 }

def sampleStore : Store := { Store.empty with orders := [sampleOrder] }

def failedGw : WmsResult :=
  { success := false, status_code := some 500, response := "err", error := some "boom" }

/-! ## Tracking numbers (`DataManager._generate_tracking_number`) -/

/-- One uppercase hexadecimal digit, as produced by
`secrets.token_hex(3).upper()`. -/
def hexUpperChar (d : Nat) : Char :=
  if d < 10 then Nat.digitChar d else Char.ofNat (55 + d)

/-- The six uppercase hex characters of a 3-byte draw. -/
def hex6 (c : Nat) : List Char :=
  [hexUpperChar (c / 16 ^ 5 % 16), hexUpperChar (c / 16 ^ 4 % 16),
   hexUpperChar (c / 16 ^ 3 % 16), hexUpperChar (c / 16 ^ 2 % 16),
   hexUpperChar (c / 16 % 16), hexUpperChar (c % 16)]

/-- Two-digit zero-padded rendering, as `strftime` `%y` / `%m` produce. -/
def pad2 (n : Nat) : List Char :=
  [Nat.digitChar (n / 10 % 10), Nat.digitChar (n % 10)]

/-- `f"WRX-{prefix}-{hex_part}"` with `prefix = strftime('%y%m')`. -/
def trackingFormat (yy mm c : Nat) : String :=
  ⟨['W', 'R', 'X', '-'] ++ pad2 yy ++ pad2 mm ++ ['-'] ++ hex6 c⟩

/-- Is `ch` an uppercase hexadecimal character? -/
def isUpperHexChar (ch : Char) : Bool :=
  ch.isDigit || ('A' ≤ ch && ch ≤ 'F')

/-- The spec's fixed tracking-number pattern: `WRX-`, two-digit year and
month, `-`, six uppercase hex characters. -/
def matchesTrackingPattern (s : String) : Bool :=
  match s.data with
  | 'W' :: 'R' :: 'X' :: '-' :: y1 :: y2 :: m1 :: m2 :: '-'
      :: h1 :: h2 :: h3 :: h4 :: h5 :: h6 :: [] =>
      y1.isDigit && y2.isDigit && m1.isDigit && m2.isDigit &&
      isUpperHexChar h1 && isUpperHexChar h2 && isUpperHexChar h3 &&
      isUpperHexChar h4 && isUpperHexChar h5 && isUpperHexChar h6
  | _ => false

def trackingNumberExists (st : Store) (t : String) : Bool :=
  st.orders.any fun o => o.tracking_number = some t

/-- The candidate loop of `_generate_tracking_number`: try each draw in
turn, returning the first candidate not already stored. -/
def genTrackingFrom (st : Store) (yy mm : Nat) : List Nat → Option String
  | [] => none
  | c :: rest =>
      let t := trackingFormat yy mm c
      if trackingNumberExists st t then genTrackingFrom st yy mm rest else some t

/-- `DataManager._generate_tracking_number`: ten candidate draws; `none`
models the raised `RuntimeError` when all ten collide. -/
def generateTrackingNumber (st : Store) (yy mm : Nat) (draws : Nat → Nat) :
    Option String :=
  genTrackingFrom st yy mm ((List.range 10).map draws)

/-! ## Order creation (`DataManager.create_order`, local mode) -/

/-- Caller-supplied order fields (the `order_data` dict before
`create_order` adds id, tracking, status and dates). -/
structure OrderInput where
  customer : String
  address : String
  suburb : String
  postcode : String
  service_level : String
  parcels : Nat
  deriving Repr, DecidableEq

/-- Result dict of `create_order`.  `tracking_number` is `Option`
because the WebPlatform variant returns no such key. -/
structure CreateResult where
  success : Bool
  order_id : String
  tracking_number : Option String
  wms_pushed : Bool
  mock : Bool
  deriving Repr, DecidableEq, Inhabited

/-- `f"SMC-{random.randint(10000, 99999)}"`, the draw reduced into the
five-digit range. -/
def orderIdFromDraw (rid : Nat) : String :=
  "SMC-" ++ toString (10000 + rid % 90000)

/-- `INSERT OR REPLACE INTO orders` on the DriverAPI schema: rows
conflicting on the `order_id` primary key or on the unique (non-null)
`tracking_number` are replaced by the new row. -/
def upsertOrderDriver (os : List OrderRec) (o : OrderRec) : List OrderRec :=
  (os.filter fun p =>
    ¬(p.order_id = o.order_id ∨
      (o.tracking_number ≠ none ∧ p.tracking_number = o.tracking_number))) ++ [o]

/-- `INSERT OR REPLACE INTO orders` on the WebPlatform schema, whose
only uniqueness constraint is the `order_id` primary key. -/
def upsertOrderWeb (os : List OrderRec) (o : OrderRec) : List OrderRec :=
  (os.filter fun p => p.order_id ≠ o.order_id) ++ [o]

/-- The stored row that `save_order` builds from `order_data` in local
mode (`wms_response=None`, `pushed=False`). -/
def newOrderRec (inp : OrderInput) (oid : String) (tn : Option String)
    (now : Nat) : OrderRec :=
  { order_id := oid
    tracking_number := tn
    customer := inp.customer
    address := inp.address
    suburb := inp.suburb
    postcode := inp.postcode
    status := "pending"
    service_level := inp.service_level
    parcels := inp.parcels
    driver_id := none
    pushed_to_wms := false
    wms_response := none
    delivery_notes := none
    proof_photo := none
    proof_signature := none
    delivered_at := none
    created_at := now
    updated_at := now }

/-- `DataManager.create_order` of `DriverAPI/data/data_manager.py` in
local mode: draw an order id, generate a tracking number (aborting the
whole call when generation exhausts its ten candidates), persist with
status `pending` and `pushed_to_wms=false`, and return success. -/
def createOrderDriverLocal (inp : OrderInput) (rid yy mm : Nat)
    (draws : Nat → Nat) (now : Nat) (st : Store) :
    Option (CreateResult × Store) :=
  match generateTrackingNumber st yy mm draws with
  | none => none
  | some tn =>
      let oid := orderIdFromDraw rid
      some
        ({ success := true, order_id := oid, tracking_number := some tn,
           wms_pushed := false, mock := false },
         { st with orders := upsertOrderDriver st.orders (newOrderRec inp oid (some tn) now) })

/-- `DataManager.create_order` of `WebPlatform/data/data_manager.py` in
local mode: same flow but the WebPlatform schema has no tracking-number
column, so none is generated, stored or returned. -/
def createOrderWebLocal (inp : OrderInput) (rid : Nat) (now : Nat) (st : Store) :
    CreateResult × Store :=
  let oid := orderIdFromDraw rid
  ({ success := true, order_id := oid, tracking_number := none,
     wms_pushed := false, mock := false },
   { st with orders := upsertOrderWeb st.orders (newOrderRec inp oid none now) })

def janeInput : OrderInput :=
  { customer := "Jane Doe", address := "1 King St", suburb := "Surry Hills",
    postcode := "2010", service_level := "standard", parcels := 2 }

/-! ## Runs (`DataManager.create_run` / `complete_run` / `cancel_run`) -/

/-- `LocalStore.save_run` (`INSERT OR REPLACE` keyed on `run_id`). -/
def saveRun (r : RunRec) (st : Store) : Store :=
  { st with runs := (st.runs.filter fun p => p.run_id ≠ r.run_id) ++ [r] }

/-- `LocalStore.save_run_orders`: one link row per selected order,
stop sequences starting at 1. -/
def saveRunOrders (rid : String) (orderIds : List String) (st : Store) : Store :=
  { st with runOrders := st.runOrders ++
      (List.enumFrom 1 orderIds).map fun p =>
        { run_id := rid, order_id := p.2, stop_sequence := p.1 } }

/-- The rows of `run_orders` belonging to one run. -/
def runRows (st : Store) (rid : String) : List RunOrderRec :=
  st.runOrders.filter fun ro => ro.run_id == rid

/-- `LocalStore.get_run_orders`: the run's link rows joined with
`orders`, so a row whose `order_id` has no matching order is dropped. -/
def getRunOrders (st : Store) (rid : String) : List RunOrderRec :=
  (runRows st rid).filter fun ro => st.orders.any fun o => o.order_id == ro.order_id

/-- `LocalStore.update_run_status`. -/
def updateRunStatus (rid status : String) (now : Nat) (st : Store) : Store :=
  { st with runs := st.runs.map fun r =>
      if r.run_id = rid then { r with status := status, updated_at := now } else r }

/-- `LocalStore.update_run_progress`: writes the supplied value
unconditionally — there is no clamp against `total_stops` or zero. -/
def updateRunProgress (rid : String) (completed : Int) (now : Nat) (st : Store) : Store :=
  { st with runs := st.runs.map fun r =>
      if r.run_id = rid then { r with completed := completed, updated_at := now } else r }

/-- `DataManager.create_run`: save the run (`status='active'`,
`total_stops = len(order_ids)`, `completed = 0`), save its link rows,
and allocate each selected order to the driver. -/
def createRun (rid zone driverId driverName : String) (orderIds : List String)
    (now : Nat) (st : Store) : Store :=
  let st1 := saveRun
    { run_id := rid, zone := zone, driver_id := driverId, driver_name := driverName,
      status := "active", total_stops := orderIds.length, completed := 0,
      updated_at := now } st
  let st2 := saveRunOrders rid orderIds st1
  orderIds.foldl (fun s oid => updateOrderStatus oid "allocated" (some driverName) now s) st2

/-- `DataManager.complete_run`: mark the run completed, mark every
joined member order delivered, and (when the join is nonempty) write
`completed = len(run_orders)`. -/
def completeRun (rid : String) (now : Nat) (st : Store) : Store :=
  let st1 := updateRunStatus rid "completed" now st
  let ros := getRunOrders st1 rid
  if ros.isEmpty then st1
  else
    let st2 := ros.foldl (fun s ro => updateOrderStatus ro.order_id "delivered" none now s) st1
    updateRunProgress rid ros.length now st2

/-- `DataManager.cancel_run`: mark the run cancelled and revert every
joined member order to pending. -/
def cancelRun (rid : String) (now : Nat) (st : Store) : Store :=
  let st1 := updateRunStatus rid "cancelled" now st
  let ros := getRunOrders st1 rid
  if ros.isEmpty then st1
  else ros.foldl (fun s ro => updateOrderStatus ro.order_id "pending" none now s) st1

/-- `DataManager.allocate_order`. -/
def allocateOrder (oid driverName : String) (now : Nat) (st : Store) : Store :=
  updateOrderStatus oid "allocated" (some driverName) now st

/-- The run-mutating operations as they are reachable from the
application's call sites: run creation with a fresh generated id
(`RUN-<date>-<count+1>`), the route-planning increment button (enabled
only while `completed < total_stops`), completion, and cancellation. -/
inductive RunStep : Store → Store → Prop
  | create (rid zone did dn : String) (orderIds : List String) (now : Nat) (st : Store)
      (hfresh : ∀ r ∈ st.runs, r.run_id ≠ rid)
      (hrows : ∀ ro ∈ st.runOrders, ro.run_id ≠ rid) :
      RunStep st (createRun rid zone did dn orderIds now st)
  | progress (rid : String) (r : RunRec) (now : Nat) (st : Store)
      (hr : r ∈ st.runs) (hid : r.run_id = rid)
      (hguard : r.completed < (r.total_stops : Int)) :
      RunStep st (updateRunProgress rid (r.completed + 1) now st)
  | complete (rid : String) (now : Nat) (st : Store) :
      RunStep st (completeRun rid now st)
  | cancel (rid : String) (now : Nat) (st : Store) :
      RunStep st (cancelRun rid now st)

/-- A store reachable from the empty store through run operations. -/
def RunReachable (st : Store) : Prop :=
  Relation.ReflTransGen RunStep Store.empty st

/-- The internal invariant carried through `RunStep`: run ids are
unique, every run satisfies `0 ≤ completed ≤ total_stops`, and each
run's `total_stops` equals its number of link rows. -/
def RunInv (st : Store) : Prop :=
  (st.runs.map RunRec.run_id).Nodup ∧
  ∀ r ∈ st.runs, 0 ≤ r.completed ∧ r.completed ≤ (r.total_stops : Int) ∧
    (runRows st r.run_id).length = r.total_stops

/-! ## Driver stop updates (`WebPlatform/api/driver_api.py update_stop_status`) -/

/-- The mobile-to-backend status map of `update_stop_status`
(`status_map.get(new_status, 'allocated')`). -/
def mobileStatusMap (s : String) : String :=
  if s = "pending" then "allocated"
  else if s = "inProgress" then "in_transit"
  else if s = "delivered" then "delivered"
  else if s = "failed" then "failed"
  else "allocated"

/-- `update_stop_status` (WebPlatform driver route): requires a status
or some proof-of-delivery media (`none` models the 400 response), then
writes the mapped status, notes and media onto the order
unconditionally via `update_order_fields`. -/
def updateStopStatusWeb (stopId : String) (newStatus : Option String) (notes : String)
    (photo signature : Option String) (now : Nat) (st : Store) : Option Store :=
  let hasStatus := newStatus.isSome
  let hasMedia := photo.isSome || signature.isSome
  if hasStatus = false ∧ hasMedia = false then none
  else some { st with orders := st.orders.map fun o =>
    if o.order_id = stopId then
      { o with
          status := match newStatus with | some s => mobileStatusMap s | none => o.status
          delivery_notes :=
            if hasStatus = true ∧ notes ≠ "" then some notes else o.delivery_notes
          proof_photo := match photo with | some p => some p | none => o.proof_photo
          proof_signature := match signature with | some g => some g | none => o.proof_signature
          updated_at := now }
    else o }

/-! ## Audit log (`log_api_call` / `get_api_log`) -/

/-- `PostgresStore.log_api_call`: the parameters are inserted verbatim —
unlike the SQLite backend there is no `[:500]` / `[:2000]` slicing. -/
def logApiCallPG (now : Nat) (operation endpoint : String) (summary : List Char)
    (success : Bool) (code : Option Int) (body : Option (List Char))
    (err : Option String) (st : Store) : Store :=
  { st with apiLog := st.apiLog ++
      [{ timestamp := now
         operation := operation
         endpoint := endpoint
         request_summary := some summary
         success := success
         status_code := code
         response_body := body
         error_message := err }] }

/-- `get_api_log` (both backends):
`SELECT ... ORDER BY timestamp DESC LIMIT 100`, over rows inserted in
timestamp order. -/
def getApiLog (st : Store) : List ApiLogRec :=
  (st.apiLog.reverse).take 100

/-! ## Driver tokens (`local_store.py` token rows, `driver_api.py` auth) -/

/-- A row of the `driver_tokens` table / an entry of the in-process
token cache. -/
structure TokenRec where
  token : String
  driver_id : String
  phone : String
  expires : Nat
  deriving Repr, DecidableEq

/-- Durable store rows plus the process-local `_mem_tokens` cache of
`WebPlatform/api/driver_api.py`. -/
structure TokState where
  store : List TokenRec
  mem : List TokenRec
  deriving Repr, DecidableEq

def TokState.empty : TokState := ⟨[], []⟩

/-- `LocalStore.save_driver_token` (`INSERT OR IGNORE` keyed on token). -/
def saveDriverTokenRow (t : TokenRec) (rows : List TokenRec) : List TokenRec :=
  if rows.any (fun r => r.token == t.token) then rows else rows ++ [t]

/-- `LocalStore.get_driver_token`: the row with this token and
`expires_at > now`, else `None`. -/
def getDriverToken (now : Nat) (tok : String) (rows : List TokenRec) : Option TokenRec :=
  rows.find? fun r => r.token == tok && decide (now < r.expires)

/-- `LocalStore.delete_driver_token`. -/
def deleteDriverTokenRow (tok : String) (rows : List TokenRec) : List TokenRec :=
  rows.filter fun r => !(r.token == tok)

/-- `LocalStore.purge_expired_driver_tokens`
(`DELETE WHERE expires_at <= now`). -/
def purgeExpiredRows (now : Nat) (rows : List TokenRec) : List TokenRec :=
  rows.filter fun r => decide (now < r.expires)

/-- Python dict assignment `_mem_tokens[token] = row`. -/
def memInsert (t : TokenRec) (mem : List TokenRec) : List TokenRec :=
  (mem.filter fun r => !(r.token == t.token)) ++ [t]

/-- Python dict lookup `_mem_tokens.get(token)`. -/
def memLookup (tok : String) (mem : List TokenRec) : Option TokenRec :=
  mem.find? fun r => r.token == tok

/-- `_save_token`: persist to the durable store and mirror into the
process cache. -/
def saveToken (tok did phone : String) (expires : Nat) (s : TokState) : TokState :=
  { store := saveDriverTokenRow ⟨tok, did, phone, expires⟩ s.store
    mem := memInsert ⟨tok, did, phone, expires⟩ s.mem }

/-- `_get_token`: durable store first (refreshing the cache on a hit),
then the in-memory cache as fallback. -/
def getToken (now : Nat) (tok : String) (s : TokState) : Option TokenRec × TokState :=
  match getDriverToken now tok s.store with
  | some r => (some r, { s with mem := memInsert r s.mem })
  | none => (memLookup tok s.mem, s)

/-- `_delete_token`: remove from the durable store and from the cache. -/
def deleteToken (tok : String) (s : TokState) : TokState :=
  { store := deleteDriverTokenRow tok s.store
    mem := s.mem.filter fun r => !(r.token == tok) }

/-- A process restart: the durable store survives, the in-process cache
does not. -/
def restart (s : TokState) : TokState := { s with mem := [] }

/-- The outcome of an authenticated route's `require_auth` decorator:
either a 401 with its JSON `error`/`message` body, or the request
proceeds with the token's driver identity. -/
inductive AuthResult where
  | denied (error message : String)
  | ok (driver_id phone : String)
  deriving Repr, DecidableEq

/-- `require_auth` of `WebPlatform/api/driver_api.py`: missing token →
401; `_get_token` miss → 401 `Invalid or expired token`; present but
`expires < now` → delete (lazy purge) and 401 `Token expired`;
otherwise proceed. -/
def requireAuthWeb (now : Nat) (tok : String) (s : TokState) : AuthResult × TokState :=
  if tok = "" then (.denied "Unauthorized" "Missing token", s)
  else
    match getToken now tok s with
    | (none, s1) => (.denied "Unauthorized" "Invalid or expired token", s1)
    | (some td, s1) =>
        if td.expires < now then
          (.denied "Unauthorized" "Token expired", deleteToken tok s1)
        else (.ok td.driver_id td.phone, s1)

/-- `require_auth` of `DriverAPI/api/driver_api.py`: backed only by the
process-global `_active_tokens` dict; missing or unknown token → 401
`Invalid or missing token`; known but expired → delete and 401
`Token expired`. -/
def requireAuthDriver (now : Nat) (tok : String) (mem : List TokenRec) :
    AuthResult × List TokenRec :=
  if tok = "" then (.denied "Unauthorized" "Invalid or missing token", mem)
  else
    match memLookup tok mem with
    | none => (.denied "Unauthorized" "Invalid or missing token", mem)
    | some td =>
        if td.expires < now then
          (.denied "Unauthorized" "Token expired", mem.filter fun r => !(r.token == tok))
        else (.ok td.driver_id td.phone, mem)

/-! ## Concrete sample states used by witnesses and counterexamples -/

/-- The token state after saving a 5-expiry token and restarting the
process: the row survives in the durable store, the cache is empty. -/
def expiredTokState : TokState :=
  restart (saveToken "T1" "DRV-101" "0412345678" 5 TokState.empty)

/-- A process cache still holding a token that expired at time 5. -/
def staleMem : List TokenRec := [⟨"TOK-A", "DRV-101", "0412345678", 5⟩]

/-- A two-record audit log appended in timestamp order. -/
def logStore : Store :=
  { Store.empty with apiLog :=
      [{ timestamp := 1, operation := "TestConnection", endpoint := "http://wms",
         request_summary := none, success := true, status_code := none,
         response_body := none, error_message := none },
       { timestamp := 2, operation := "CancelSalesOrder", endpoint := "http://wms",
         request_summary := none, success := false, status_code := some 500,
         response_body := none, error_message := some "boom" }] }

def sampleRun : RunRec :=
  { run_id := "RUN-260211-001", zone := "CBD", driver_id := "DRV-101",
    driver_name := "Dave", status := "active", total_stops := 3, completed := 0,
    updated_at := 0 }

def runStore : Store := { Store.empty with runs := [sampleRun] }

def deliveredOrder : OrderRec :=
  { sampleOrder with order_id := "SMC-777", status := "delivered", delivered_at := some 5 }

def deliveredStore : Store := { Store.empty with orders := [deliveredOrder] }

/-- A one-run, one-order store whose run links the order. -/
def linkedStore : Store :=
  { Store.empty with
      orders := [sampleOrder]
      runs := [{ sampleRun with total_stops := 1 }]
      runOrders := [{ run_id := "RUN-260211-001", order_id := "SMC-12345",
                      stop_sequence := 1 }] }

/-- The single run row produced by creating a one-stop run at time 3. -/
def sampleNewRun : RunRec :=
  { run_id := "RUN-260212-001", zone := "CBD", driver_id := "DRV-101",
    driver_name := "Dave", status := "active", total_stops := 1, completed := 0,
    updated_at := 3 }

/-- `linkedStore`'s run row after `complete_run` at time 9. -/
def completedLinkedRun : RunRec :=
  { run_id := "RUN-260211-001", zone := "CBD", driver_id := "DRV-101",
    driver_name := "Dave", status := "completed", total_stops := 1, completed := 1,
    updated_at := 9 }

/-- `deliveredStore`'s order after `allocate_order` at time 9. -/
def allocatedOrder777 : OrderRec :=
  { deliveredOrder with status := "allocated", driver_id := some "Dave",
                        updated_at := 9 }

/-- The row, result and store produced by the Jane-Doe scenario through
the DriverAPI `create_order` in local mode on an empty store. -/
def janeCreatedRec : OrderRec :=
  newOrderRec janeInput "SMC-12345" (some (trackingFormat 26 2 1)) 5

def janeCreatedResult : CreateResult :=
  { success := true, order_id := "SMC-12345",
    tracking_number := some (trackingFormat 26 2 1), wms_pushed := false,
    mock := false }

def janeCreatedStore : Store := { Store.empty with orders := [janeCreatedRec] }

/-! ## Theorems -/

/-- After `update_order_status`, every row carrying the targeted id has
exactly the written status. -/
theorem updateOrderStatus_status (oid status : String) (driver : Option String)
    (now : Nat) (st : Store) :
    ∀ o ∈ (updateOrderStatus oid status driver now st).orders,
      o.order_id = oid → o.status = status := by
  intro o ho hid
  simp only [updateOrderStatus, List.mem_map] at ho
  obtain ⟨p, _, rfl⟩ := ho
  by_cases hp : p.order_id = oid
  · simp [hp]
  · simp only [if_neg hp] at hid ⊢
    exact absurd hid hp

/-- C1.  Cancellation is externally authoritative: in live mode a failed
gateway cancel leaves every stored order row untouched and hands the
gateway's failure result back to the caller; the local status is written
to `failed` exactly when the gateway confirmed the cancellation or the
gateway is not configured, and then every row with the cancelled id
carries status `failed`. -/
theorem cancel_order_externally_authoritative
    (isLive : Bool) (gw : WmsResult) (baseUrl : String) (now : Nat)
    (oid : String) (st : Store) :
    (isLive = true → gw.success = false →
      (cancelOrder isLive gw baseUrl now oid st).2.orders = st.orders ∧
      (cancelOrder isLive gw baseUrl now oid st).1 = .gatewayFailure gw) ∧
    ((isLive = false ∨ gw.success = true) →
      (cancelOrder isLive gw baseUrl now oid st).1 = .ok ∧
      ∀ o ∈ (cancelOrder isLive gw baseUrl now oid st).2.orders,
        o.order_id = oid → o.status = "failed") := by
  constructor
  · rintro rfl hfail
    simp [cancelOrder, hfail, logApiCall]
  · intro hok
    have hcases : isLive = false ∨ (isLive = true ∧ gw.success = true) := by
      rcases hok with h | h
      · exact Or.inl h
      · cases isLive
        · exact Or.inl rfl
        · exact Or.inr ⟨rfl, h⟩
    rcases hcases with h | ⟨h1, h2⟩
    · subst h
      refine ⟨by simp [cancelOrder], ?_⟩
      intro o ho hid
      have : (cancelOrder false gw baseUrl now oid st).2
          = updateOrderStatus oid "failed" none now st := by simp [cancelOrder]
      rw [this] at ho
      exact updateOrderStatus_status _ _ _ _ _ o ho hid
    · subst h1
      refine ⟨by simp [cancelOrder, h2], ?_⟩
      intro o ho hid
      have : (cancelOrder true gw baseUrl now oid st).2
          = updateOrderStatus oid "failed" none now
              (logApiCall now "CancelSalesOrder" (baseUrl ++ "/CancelSalesOrder/")
                ("Cancel order " ++ oid).data gw.success gw.status_code
                (some gw.response.data) gw.error st) := by
        simp [cancelOrder, h2]
      rw [this] at ho
      exact updateOrderStatus_status _ _ _ _ _ o ho hid

/-- Concrete instantiation of `cancel_order_externally_authoritative`:
a live cancel whose gateway push fails, run against a one-order store. -/
theorem cancel_order_externally_authoritative_witness :
    (cancelOrder true failedGw "http://wms" 7 "SMC-12345" sampleStore).2.orders
        = sampleStore.orders ∧
    (cancelOrder true failedGw "http://wms" 7 "SMC-12345" sampleStore).1
        = .gatewayFailure failedGw := by
  exact (cancel_order_externally_authoritative true failedGw "http://wms" 7
    "SMC-12345" sampleStore).1 rfl rfl

theorem digitChar_isDigit : ∀ d < 10, (Nat.digitChar d).isDigit = true := by decide

theorem hexUpperChar_isHex : ∀ d < 16, isUpperHexChar (hexUpperChar d) = true := by decide

theorem trackingFormat_matches (yy mm c : Nat) :
    matchesTrackingPattern (trackingFormat yy mm c) = true := by
  have h16 : ∀ n : Nat, n % 16 < 16 := fun n => Nat.mod_lt _ (by norm_num)
  have h10 : ∀ n : Nat, n % 10 < 10 := fun n => Nat.mod_lt _ (by norm_num)
  show (_ && _ && _ && _ && _ && _ && _ && _ && _ && _) = true
  simp [digitChar_isDigit _ (h10 _), hexUpperChar_isHex _ (h16 _)]

theorem genTrackingFrom_some (st : Store) (yy mm : Nat) :
    ∀ cs t, genTrackingFrom st yy mm cs = some t →
      (∃ c ∈ cs, t = trackingFormat yy mm c) ∧ trackingNumberExists st t = false := by
  intro cs
  induction cs with
  | nil => intro t h; simp [genTrackingFrom] at h
  | cons c rest ih =>
      intro t h
      simp only [genTrackingFrom] at h
      by_cases hc : trackingNumberExists st (trackingFormat yy mm c) = true
      · rw [if_pos hc] at h
        obtain ⟨⟨d, hd, rfl⟩, hfree⟩ := ih t h
        exact ⟨⟨d, List.mem_cons_of_mem _ hd, rfl⟩, hfree⟩
      · rw [if_neg hc] at h
        cases h
        exact ⟨⟨c, List.mem_cons_self _ _, rfl⟩, by simpa using hc⟩

theorem genTrackingFrom_none (st : Store) (yy mm : Nat) :
    ∀ cs, (∀ c ∈ cs, trackingNumberExists st (trackingFormat yy mm c) = true) →
      genTrackingFrom st yy mm cs = none := by
  intro cs
  induction cs with
  | nil => intro _; rfl
  | cons c rest ih =>
      intro h
      simp only [genTrackingFrom, if_pos (h c (List.mem_cons_self _ _))]
      exact ih fun d hd => h d (List.mem_cons_of_mem _ hd)

/-- C6.  Every tracking number produced matches the fixed
`WRX-<yy><mm>-<6 uppercase hex>` pattern and differs from every tracking
number already stored; if all ten random candidates collide with stored
tracking numbers, generation aborts — no tracking number is returned
and `create_order` saves no order (it raises before `save_order`). -/
theorem tracking_number_generation_sound (st : Store) (yy mm : Nat)
    (draws : Nat → Nat) :
    (∀ t, generateTrackingNumber st yy mm draws = some t →
      matchesTrackingPattern t = true ∧
      ∀ o ∈ st.orders, o.tracking_number ≠ some t) ∧
    ((∀ i < 10, trackingNumberExists st (trackingFormat yy mm (draws i)) = true) →
      generateTrackingNumber st yy mm draws = none ∧
      ∀ inp rid now, createOrderDriverLocal inp rid yy mm draws now st = none) := by
  constructor
  · intro t h
    obtain ⟨⟨c, _, rfl⟩, hfree⟩ := genTrackingFrom_some st yy mm _ t h
    refine ⟨trackingFormat_matches yy mm c, ?_⟩
    intro o ho heq
    have : trackingNumberExists st (trackingFormat yy mm c) = true := by
      simp only [trackingNumberExists, List.any_eq_true, decide_eq_true_eq]
      exact ⟨o, ho, heq⟩
    rw [this] at hfree
    exact Bool.true_eq_false.mp hfree
  · intro hall
    have hnone : generateTrackingNumber st yy mm draws = none := by
      apply genTrackingFrom_none
      intro c hc
      simp only [List.mem_map, List.mem_range] at hc
      obtain ⟨i, hi, rfl⟩ := hc
      exact hall i hi
    refine ⟨hnone, ?_⟩
    intro inp rid now
    simp [createOrderDriverLocal, hnone]

/-- Concrete instantiation of `tracking_number_generation_sound`. -/
theorem tracking_number_generation_sound_witness :
    matchesTrackingPattern (trackingFormat 26 2 1) = true ∧
    sampleOrder.tracking_number ≠ some (trackingFormat 26 2 1) := by
  have h := (tracking_number_generation_sound sampleStore 26 2 fun _ => 1).1
    (trackingFormat 26 2 1) (by decide)
  exact ⟨h.1, h.2 sampleOrder (by decide)⟩

/-- C2 counterexample.  The claim quantifies over every `create_order`
call (both cited variants), but the WebPlatform variant, run on the
spec's own Jane-Doe scenario in local mode, returns a result carrying no
tracking number at all (and stores the order with a NULL tracking
number), so the result cannot carry a tracking number matching the
pattern. -/
theorem create_order_web_has_no_tracking_number :
    (createOrderWebLocal janeInput 2345 5 Store.empty).1.success = true ∧
    (createOrderWebLocal janeInput 2345 5 Store.empty).1.tracking_number = none ∧
    (createOrderWebLocal janeInput 2345 5 Store.empty).2.orders.map
        OrderRec.tracking_number = [none] := by
  refine ⟨rfl, rfl, ?_⟩
  decide

/-- C2 as amended.  In local mode both `create_order` variants return
`success=true`, `wms_pushed=false` and persist the order with status
`pending` and `pushed_to_wms=false`; the DriverAPI variant additionally
returns a fresh tracking number matching the fixed pattern and stores it
on the persisted row, while the WebPlatform variant stores and returns
no tracking number. -/
theorem create_order_locally_authoritative (inp : OrderInput) (rid yy mm : Nat)
    (draws : Nat → Nat) (now : Nat) (st : Store) :
    (∀ res st1, createOrderDriverLocal inp rid yy mm draws now st = some (res, st1) →
      res.success = true ∧ res.wms_pushed = false ∧
      ∃ t, res.tracking_number = some t ∧ matchesTrackingPattern t = true ∧
        ∃ o ∈ st1.orders, o.order_id = res.order_id ∧ o.status = "pending" ∧
          o.pushed_to_wms = false ∧ o.tracking_number = some t) ∧
    ((createOrderWebLocal inp rid now st).1.success = true ∧
     (createOrderWebLocal inp rid now st).1.wms_pushed = false ∧
     (createOrderWebLocal inp rid now st).1.tracking_number = none ∧
     ∃ o ∈ (createOrderWebLocal inp rid now st).2.orders,
       o.order_id = (createOrderWebLocal inp rid now st).1.order_id ∧
       o.status = "pending" ∧ o.pushed_to_wms = false ∧
       o.tracking_number = none) := by
  constructor
  · intro res st1 h
    simp only [createOrderDriverLocal] at h
    cases hg : generateTrackingNumber st yy mm draws with
    | none => rw [hg] at h; exact absurd h (by simp)
    | some tn =>
        rw [hg] at h
        obtain ⟨⟨c, _, rfl⟩, _⟩ := genTrackingFrom_some st yy mm _ tn hg
        injection h with h1
        injection h1 with hres hst
        subst hres; subst hst
        refine ⟨rfl, rfl, trackingFormat yy mm c, rfl, trackingFormat_matches yy mm c, ?_⟩
        refine ⟨newOrderRec inp (orderIdFromDraw rid) (some (trackingFormat yy mm c)) now,
          ?_, rfl, rfl, rfl, rfl⟩
        simp [upsertOrderDriver]
  · refine ⟨rfl, rfl, rfl, ?_⟩
    refine ⟨newOrderRec inp (orderIdFromDraw rid) none now, ?_, rfl, rfl, rfl, rfl⟩
    simp [createOrderWebLocal, upsertOrderWeb]

/-- Concrete instantiation of `create_order_locally_authoritative`: the
spec's Jane-Doe scenario through the DriverAPI variant on an empty
store. -/
theorem create_order_locally_authoritative_witness :
    janeCreatedResult.success = true ∧ janeCreatedResult.wms_pushed = false ∧
    ∃ t, janeCreatedResult.tracking_number = some t ∧
      matchesTrackingPattern t = true ∧
      ∃ o ∈ janeCreatedStore.orders, o.order_id = janeCreatedResult.order_id ∧
        o.status = "pending" ∧ o.pushed_to_wms = false ∧
        o.tracking_number = some t :=
  (create_order_locally_authoritative janeInput 2345 26 2 (fun _ => 1) 5
    Store.empty).1 janeCreatedResult janeCreatedStore (by decide)

/-- C10.  `create_order` never fails on an order-id collision: two calls
drawing the same five-digit random id both report success, and the
second silently replaces the first order's entire row (`INSERT OR
REPLACE` keyed on `order_id`), leaving a single stored row holding the
second caller's data. -/
theorem create_order_id_collision_upserts :
    ∃ r1 st1 r2 st2,
      createOrderDriverLocal janeInput 7 26 2 (fun _ => 1) 10 Store.empty
          = some (r1, st1) ∧
      createOrderDriverLocal
          { customer := "Bob Roe", address := "2 Queen St", suburb := "Newtown",
            postcode := "2042", service_level := "express", parcels := 1 }
          7 26 2 (fun _ => 2) 11 st1 = some (r2, st2) ∧
      r1.order_id = r2.order_id ∧ r1.success = true ∧ r2.success = true ∧
      st2.orders.map OrderRec.customer = ["Bob Roe"] := by
  refine ⟨_, _, _, _, rfl, rfl, rfl, rfl, rfl, ?_⟩
  decide

theorem foldl_updateOrderStatus_runs {α : Type} (key : α → String) (status : String)
    (d : Option String) (now : Nat) :
    ∀ (l : List α) (st : Store),
      (l.foldl (fun s x => updateOrderStatus (key x) status d now s) st).runs = st.runs := by
  intro l
  induction l with
  | nil => intro st; rfl
  | cons x rest ih => intro st; exact ih (updateOrderStatus (key x) status d now st)

theorem foldl_updateOrderStatus_runOrders {α : Type} (key : α → String) (status : String)
    (d : Option String) (now : Nat) :
    ∀ (l : List α) (st : Store),
      (l.foldl (fun s x => updateOrderStatus (key x) status d now s) st).runOrders
        = st.runOrders := by
  intro l
  induction l with
  | nil => intro st; rfl
  | cons x rest ih => intro st; exact ih (updateOrderStatus (key x) status d now st)

theorem updateOrderStatus_keeps (k status : String) (d : Option String) (now : Nat)
    (oid : String) (st : Store)
    (h : ∀ o ∈ st.orders, o.order_id = oid → o.status = status) :
    ∀ o ∈ (updateOrderStatus k status d now st).orders,
      o.order_id = oid → o.status = status := by
  intro o ho hid
  simp only [updateOrderStatus, List.mem_map] at ho
  obtain ⟨p, hp, rfl⟩ := ho
  by_cases hk : p.order_id = k
  · simp [hk]
  · simp only [if_neg hk] at hid ⊢
    exact h p hp hid

theorem foldl_updateOrderStatus_keeps {α : Type} (key : α → String) (status : String)
    (d : Option String) (now : Nat) (oid : String) :
    ∀ (l : List α) (st : Store),
      (∀ o ∈ st.orders, o.order_id = oid → o.status = status) →
      ∀ o ∈ (l.foldl (fun s x => updateOrderStatus (key x) status d now s) st).orders,
        o.order_id = oid → o.status = status := by
  intro l
  induction l with
  | nil => intro st h; exact h
  | cons x rest ih =>
      intro st h
      exact ih _ (updateOrderStatus_keeps (key x) status d now oid st h)

theorem foldl_updateOrderStatus_sets {α : Type} (key : α → String) (status : String)
    (d : Option String) (now : Nat) (oid : String) :
    ∀ (l : List α) (st : Store), (∃ x ∈ l, key x = oid) →
      ∀ o ∈ (l.foldl (fun s x => updateOrderStatus (key x) status d now s) st).orders,
        o.order_id = oid → o.status = status := by
  intro l
  induction l with
  | nil => rintro st ⟨x, hx, -⟩; exact absurd hx (List.not_mem_nil x)
  | cons y rest ih =>
      rintro st ⟨x, hx, hkey⟩
      rcases List.mem_cons.mp hx with rfl | hx2
      · refine foldl_updateOrderStatus_keeps key status d now oid rest _ ?_
        intro o ho hid
        exact updateOrderStatus_status (key x) status d now st o ho
          (by rw [hkey]; exact hid)
      · exact ih _ ⟨x, hx2, hkey⟩

theorem runs_map_runId (l : List RunRec) (f : RunRec → RunRec)
    (hf : ∀ r, (f r).run_id = r.run_id) :
    (l.map f).map RunRec.run_id = l.map RunRec.run_id := by
  rw [List.map_map]
  exact List.map_congr_left fun a _ => hf a

theorem saveRun_runs_of_fresh (r : RunRec) (st : Store)
    (hfresh : ∀ p ∈ st.runs, p.run_id ≠ r.run_id) :
    (saveRun r st).runs = st.runs ++ [r] := by
  show (st.runs.filter fun p => p.run_id ≠ r.run_id) ++ [r] = st.runs ++ [r]
  rw [List.filter_eq_self.mpr]
  intro a ha
  simpa using hfresh a ha

theorem createRun_runs (rid zone did dn : String) (orderIds : List String) (now : Nat)
    (st : Store) (hfresh : ∀ r ∈ st.runs, r.run_id ≠ rid) :
    (createRun rid zone did dn orderIds now st).runs =
      st.runs ++ [{ run_id := rid, zone := zone, driver_id := did, driver_name := dn,
                    status := "active", total_stops := orderIds.length, completed := 0,
                    updated_at := now }] := by
  unfold createRun
  rw [foldl_updateOrderStatus_runs]
  exact saveRun_runs_of_fresh _ st hfresh

theorem createRun_runOrders (rid zone did dn : String) (orderIds : List String)
    (now : Nat) (st : Store) :
    (createRun rid zone did dn orderIds now st).runOrders =
      st.runOrders ++ (List.enumFrom 1 orderIds).map fun p =>
        { run_id := rid, order_id := p.2, stop_sequence := p.1 } := by
  unfold createRun
  rw [foldl_updateOrderStatus_runOrders]
  rfl

theorem runInv_empty : RunInv Store.empty := by
  constructor
  · simp [Store.empty]
  · intro r hr
    simp [Store.empty] at hr

theorem completeRun_eq (rid : String) (now : Nat) (st : Store) :
    completeRun rid now st =
      if (getRunOrders st rid).isEmpty then updateRunStatus rid "completed" now st
      else
        updateRunProgress rid ((getRunOrders st rid).length : Int) now
          ((getRunOrders st rid).foldl
            (fun s ro => updateOrderStatus ro.order_id "delivered" none now s)
            (updateRunStatus rid "completed" now st)) := rfl

theorem cancelRun_eq (rid : String) (now : Nat) (st : Store) :
    cancelRun rid now st =
      if (getRunOrders st rid).isEmpty then updateRunStatus rid "cancelled" now st
      else
        (getRunOrders st rid).foldl
          (fun s ro => updateOrderStatus ro.order_id "pending" none now s)
          (updateRunStatus rid "cancelled" now st) := rfl

theorem runInv_of_eq (s1 s2 : Store) (hr : s2.runs = s1.runs)
    (hro : s2.runOrders = s1.runOrders) (h : RunInv s1) : RunInv s2 := by
  obtain ⟨hnd, hrow⟩ := h
  constructor
  · rw [hr]; exact hnd
  · intro r hmem
    rw [hr] at hmem
    obtain ⟨h0, h1, h2⟩ := hrow r hmem
    refine ⟨h0, h1, ?_⟩
    show ((s2.runOrders.filter fun ro => ro.run_id == r.run_id).length) = r.total_stops
    rw [hro]
    exact h2

theorem runInv_updateRunStatus (rid status : String) (now : Nat) (st : Store)
    (h : RunInv st) : RunInv (updateRunStatus rid status now st) := by
  obtain ⟨hnd, hrow⟩ := h
  constructor
  · show ((st.runs.map _).map RunRec.run_id).Nodup
    rw [runs_map_runId _ _ (fun r2 => by split <;> rfl)]
    exact hnd
  · intro r' hr'
    obtain ⟨r, hr, rfl⟩ := List.mem_map.mp hr'
    obtain ⟨h0, h1, h2⟩ := hrow r hr
    by_cases hc : r.run_id = rid
    · simp only [if_pos hc]
      exact ⟨h0, h1, h2⟩
    · simp only [if_neg hc]
      exact ⟨h0, h1, h2⟩

theorem runInv_updateRunProgress (rid : String) (L : Int) (now : Nat) (st : Store)
    (h : RunInv st) (hL0 : 0 ≤ L)
    (hL : ∀ r ∈ st.runs, r.run_id = rid → L ≤ (r.total_stops : Int)) :
    RunInv (updateRunProgress rid L now st) := by
  obtain ⟨hnd, hrow⟩ := h
  constructor
  · show ((st.runs.map _).map RunRec.run_id).Nodup
    rw [runs_map_runId _ _ (fun r2 => by split <;> rfl)]
    exact hnd
  · intro r' hr'
    obtain ⟨r, hr, rfl⟩ := List.mem_map.mp hr'
    obtain ⟨h0, h1, h2⟩ := hrow r hr
    by_cases hc : r.run_id = rid
    · simp only [if_pos hc]
      exact ⟨hL0, hL r hr hc, h2⟩
    · simp only [if_neg hc]
      exact ⟨h0, h1, h2⟩

theorem runInv_step {s1 s2 : Store} (hstep : RunStep s1 s2) (hinv : RunInv s1) :
    RunInv s2 := by
  obtain ⟨hnd, hrow⟩ := hinv
  cases hstep with
  | create rid zone did dn orderIds now st hfresh hrows2 =>
      have hruns := createRun_runs rid zone did dn orderIds now s1 hfresh
      have hro := createRun_runOrders rid zone did dn orderIds now s1
      constructor
      · rw [hruns, List.map_append, List.nodup_append]
        refine ⟨hnd, by simp, ?_⟩
        intro a ha
        simp only [List.mem_map] at ha
        obtain ⟨r, hr, rfl⟩ := ha
        simp only [List.map_cons, List.map_nil, List.mem_singleton]
        exact hfresh r hr
      · intro r hr
        rw [hruns] at hr
        rcases List.mem_append.mp hr with hold | hnew
        · obtain ⟨h0, h1, h2⟩ := hrow r hold
          refine ⟨h0, h1, ?_⟩
          have hne : r.run_id ≠ rid := hfresh r hold
          show (((createRun rid zone did dn orderIds now s1).runOrders.filter
            fun ro => ro.run_id == r.run_id).length) = r.total_stops
          rw [hro, List.filter_append]
          have hz : (((List.enumFrom 1 orderIds).map fun p =>
              ({ run_id := rid, order_id := p.2, stop_sequence := p.1 } : RunOrderRec)).filter
              fun ro => ro.run_id == r.run_id) = [] := by
            rw [List.filter_eq_nil_iff]
            intro ro hmem
            simp only [List.mem_map] at hmem
            obtain ⟨p, -, rfl⟩ := hmem
            simp only [beq_iff_eq]
            exact fun hc => hne hc.symm
          rw [hz, List.append_nil]
          exact h2
        · rw [List.mem_singleton] at hnew
          subst hnew
          refine ⟨le_refl 0, ?_, ?_⟩
          · show (0 : Int) ≤ (orderIds.length : Int)
            exact Int.natCast_nonneg _
          show (((createRun rid zone did dn orderIds now s1).runOrders.filter
            fun ro => ro.run_id == rid).length) = orderIds.length
          rw [hro, List.filter_append]
          have h1z : (s1.runOrders.filter fun ro => ro.run_id == rid) = [] := by
            rw [List.filter_eq_nil_iff]
            intro ro hmem
            simp only [beq_iff_eq]
            exact hrows2 ro hmem
          have h2z : (((List.enumFrom 1 orderIds).map fun p =>
              ({ run_id := rid, order_id := p.2, stop_sequence := p.1 } : RunOrderRec)).filter
              fun ro => ro.run_id == rid)
              = (List.enumFrom 1 orderIds).map fun p =>
                ({ run_id := rid, order_id := p.2, stop_sequence := p.1 } : RunOrderRec) := by
            rw [List.filter_eq_self]
            intro ro hmem
            simp only [List.mem_map] at hmem
            obtain ⟨p, -, rfl⟩ := hmem
            simp
          rw [h1z, h2z, List.nil_append, List.length_map, List.enumFrom_length]
  | progress rid r now st hr hid hguard =>
      obtain ⟨h0, h1, h2⟩ := hrow r hr
      refine runInv_updateRunProgress rid (r.completed + 1) now s1 ⟨hnd, hrow⟩
        (by omega) ?_
      intro r2 hr2 hc2
      have hrr : r2 = r :=
        List.inj_on_of_nodup_map hnd hr2 hr (by rw [hc2, hid])
      rw [hrr]
      omega
  | complete rid now st =>
      rw [completeRun_eq]
      by_cases hB : (getRunOrders s1 rid).isEmpty = true
      · rw [if_pos hB]
        exact runInv_updateRunStatus rid "completed" now s1 ⟨hnd, hrow⟩
      · rw [if_neg hB]
        have hinv1 := runInv_updateRunStatus rid "completed" now s1 ⟨hnd, hrow⟩
        have hinvF : RunInv ((getRunOrders s1 rid).foldl
            (fun s ro => updateOrderStatus ro.order_id "delivered" none now s)
            (updateRunStatus rid "completed" now s1)) :=
          runInv_of_eq _ _
            (foldl_updateOrderStatus_runs (fun ro : RunOrderRec => ro.order_id)
              "delivered" none now _ _)
            (foldl_updateOrderStatus_runOrders (fun ro : RunOrderRec => ro.order_id)
              "delivered" none now _ _)
            hinv1
        refine runInv_updateRunProgress rid _ now _ hinvF (by omega) ?_
        intro r2 hr2 hc2
        have hr2eq : ((getRunOrders s1 rid).foldl
            (fun s ro => updateOrderStatus ro.order_id "delivered" none now s)
            (updateRunStatus rid "completed" now s1)).runs
              = (updateRunStatus rid "completed" now s1).runs :=
          foldl_updateOrderStatus_runs (fun ro : RunOrderRec => ro.order_id)
            "delivered" none now _ _
        rw [hr2eq] at hr2
        obtain ⟨r0, hr0, rfl⟩ := List.mem_map.mp hr2
        have hid0 : r0.run_id = rid := by
          by_cases hc : r0.run_id = rid
          · exact hc
          · rw [if_neg hc] at hc2
            exact absurd hc2 hc
        rw [if_pos hid0] at hc2 ⊢
        obtain ⟨-, -, h2⟩ := hrow r0 hr0
        have hle : (getRunOrders s1 rid).length ≤ (runRows s1 rid).length :=
          List.length_filter_le _ _
        rw [hid0] at h2
        show ((getRunOrders s1 rid).length : Int) ≤ (r0.total_stops : Int)
        omega
  | cancel rid now st =>
      rw [cancelRun_eq]
      by_cases hB : (getRunOrders s1 rid).isEmpty = true
      · rw [if_pos hB]
        exact runInv_updateRunStatus rid "cancelled" now s1 ⟨hnd, hrow⟩
      · rw [if_neg hB]
        exact runInv_of_eq _ _
          (foldl_updateOrderStatus_runs (fun ro : RunOrderRec => ro.order_id)
            "pending" none now _ _)
          (foldl_updateOrderStatus_runOrders (fun ro : RunOrderRec => ro.order_id)
            "pending" none now _ _)
          (runInv_updateRunStatus rid "cancelled" now s1 ⟨hnd, hrow⟩)

theorem updateRunStatus_status (rid status : String) (now : Nat) (st : Store) :
    ∀ r ∈ (updateRunStatus rid status now st).runs, r.run_id = rid → r.status = status := by
  intro r hr hid
  simp only [updateRunStatus, List.mem_map] at hr
  obtain ⟨p, _, rfl⟩ := hr
  by_cases hp : p.run_id = rid
  · simp [hp]
  · simp only [if_neg hp] at hid ⊢
    exact absurd hid hp

theorem cancelRun_runs (rid : String) (now : Nat) (st : Store) :
    (cancelRun rid now st).runs = st.runs.map fun r1 =>
      if r1.run_id = rid then { r1 with status := "cancelled", updated_at := now }
      else r1 := by
  rw [cancelRun_eq]
  by_cases hB : (getRunOrders st rid).isEmpty = true
  · rw [if_pos hB]; rfl
  · rw [if_neg hB]
    exact foldl_updateOrderStatus_runs (fun ro : RunOrderRec => ro.order_id)
      "pending" none now _ _

theorem completeRun_runs_nonempty (rid : String) (now : Nat) (st : Store)
    (hB : ¬((getRunOrders st rid).isEmpty = true)) :
    (completeRun rid now st).runs = st.runs.map fun r1 =>
      if r1.run_id = rid then
        { r1 with status := "completed",
                  completed := ((getRunOrders st rid).length : Int),
                  updated_at := now }
      else r1 := by
  rw [completeRun_eq, if_neg hB]
  show ((getRunOrders st rid).foldl _ (updateRunStatus rid "completed" now st)).runs.map _ = _
  rw [foldl_updateOrderStatus_runs (fun ro : RunOrderRec => ro.order_id) "delivered" none now]
  show ((st.runs.map _).map _) = _
  rw [List.map_map]
  apply List.map_congr_left
  intro r1 _
  by_cases hc : r1.run_id = rid
  · simp [Function.comp, hc]
  · simp [Function.comp, hc]

/-- C3 counterexample.  `update_run_progress` stores whatever integer
the caller supplies: a direct call can push `completed` above
`total_stops` (here 5 > 3) or below zero, so the operation itself does
not enforce the invariant the claim asserts. -/
theorem update_run_progress_unclamped :
    (updateRunProgress "RUN-260211-001" 5 1 runStore).runs.map
        RunRec.completed = [5] ∧
    (updateRunProgress "RUN-260211-001" 5 1 runStore).runs.map
        RunRec.total_stops = [3] ∧
    (updateRunProgress "RUN-260211-001" (-1) 1 runStore).runs.map
        RunRec.completed = [-1] ∧
    ¬((5 : Int) ≤ (3 : Int)) ∧ ((-1 : Int) < 0) := by
  decide

/-- C3 as amended.  `update_run_progress` itself writes the supplied
value unconditionally, so a raw call can violate the bound; along the
program's actual call paths — run creation (`completed = 0`), the
route-planning increment button (disabled once `completed ≥
total_stops`), completion and cancellation — every reachable store
satisfies `0 ≤ completed ≤ total_stops` for every run. -/
theorem run_progress_invariant_reachable (st : Store) (h : RunReachable st) :
    ∀ r ∈ st.runs, 0 ≤ r.completed ∧ r.completed ≤ (r.total_stops : Int) := by
  have hinv : RunInv st := by
    induction h with
    | refl => exact runInv_empty
    | tail _ hstep ih => exact runInv_step hstep ih
  intro r hr
  exact ⟨(hinv.2 r hr).1, (hinv.2 r hr).2.1⟩

/-- Concrete instantiation of `run_progress_invariant_reachable`: the
state reached by creating one single-stop run from the empty store. -/
theorem run_progress_invariant_reachable_witness :
    0 ≤ sampleNewRun.completed ∧
    sampleNewRun.completed ≤ (sampleNewRun.total_stops : Int) :=
  run_progress_invariant_reachable _
    (Relation.ReflTransGen.single
      (RunStep.create "RUN-260212-001" "CBD" "DRV-101" "Dave" ["SMC-12345"] 3
        Store.empty
        (fun r hr => absurd hr (List.not_mem_nil r))
        (fun ro hro => absurd hro (List.not_mem_nil ro))))
    sampleNewRun (by decide)

/-- C4.  For a well-formed run (its link rows reference existing
orders, `total_stops` counts its link rows, and `0 ≤ completed ≤
total_stops` as creation guarantees), `complete_run` marks the run
`completed`, makes `completed = total_stops`, and sets every member
order to `delivered`; `cancel_run` marks the run `cancelled` and
reverts every member order to `pending`. -/
theorem run_completion_and_cancellation_cascade (rid : String) (now : Nat) (st : Store)
    (hexist : ∀ ro ∈ st.runOrders, ro.run_id = rid →
      (st.orders.any fun o => o.order_id == ro.order_id) = true)
    (hruns : ∀ r ∈ st.runs, r.run_id = rid →
      (runRows st rid).length = r.total_stops ∧ 0 ≤ r.completed ∧
        r.completed ≤ (r.total_stops : Int)) :
    (∀ r ∈ (completeRun rid now st).runs, r.run_id = rid →
        r.status = "completed" ∧ r.completed = (r.total_stops : Int)) ∧
    (∀ o ∈ (completeRun rid now st).orders,
        (∃ ro ∈ st.runOrders, ro.run_id = rid ∧ ro.order_id = o.order_id) →
        o.status = "delivered") ∧
    (∀ r ∈ (cancelRun rid now st).runs, r.run_id = rid → r.status = "cancelled") ∧
    (∀ o ∈ (cancelRun rid now st).orders,
        (∃ ro ∈ st.runOrders, ro.run_id = rid ∧ ro.order_id = o.order_id) →
        o.status = "pending") := by
  have hros_eq : getRunOrders st rid = runRows st rid := by
    unfold getRunOrders
    rw [List.filter_eq_self]
    intro ro hmem
    simp only [runRows, List.mem_filter, beq_iff_eq] at hmem
    exact hexist ro hmem.1 hmem.2
  have hmem_ros : ∀ ro ∈ st.runOrders, ro.run_id = rid → ro ∈ getRunOrders st rid := by
    intro ro hro hroid
    rw [hros_eq]
    simp only [runRows, List.mem_filter, beq_iff_eq]
    exact ⟨hro, hroid⟩
  refine ⟨?_, ?_, ?_, ?_⟩
  · -- complete_run: run row
    intro r hr hid
    by_cases hB : (getRunOrders st rid).isEmpty = true
    · rw [completeRun_eq, if_pos hB] at hr
      obtain ⟨r0, hr0, rfl⟩ := List.mem_map.mp hr
      have hc : r0.run_id = rid := by
        by_cases hc0 : r0.run_id = rid
        · exact hc0
        · rw [if_neg hc0] at hid; exact absurd hid hc0
      rw [if_pos hc] at hid ⊢
      obtain ⟨hlen, hge, hle⟩ := hruns r0 hr0 hc
      have hnil : runRows st rid = [] := by
        rw [← hros_eq]
        exact List.isEmpty_iff.mp hB
      rw [hnil] at hlen
      refine ⟨rfl, ?_⟩
      show r0.completed = (r0.total_stops : Int)
      simp only [List.length_nil] at hlen
      omega
    · rw [completeRun_runs_nonempty rid now st hB] at hr
      obtain ⟨r0, hr0, rfl⟩ := List.mem_map.mp hr
      have hc : r0.run_id = rid := by
        by_cases hc0 : r0.run_id = rid
        · exact hc0
        · rw [if_neg hc0] at hid; exact absurd hid hc0
      rw [if_pos hc] at hid ⊢
      obtain ⟨hlen, -, -⟩ := hruns r0 hr0 hc
      refine ⟨rfl, ?_⟩
      show ((getRunOrders st rid).length : Int) = (r0.total_stops : Int)
      rw [hros_eq, hlen]
  · -- complete_run: member orders
    rintro o ho ⟨ro, hro, hroid, hrooid⟩
    have hmem : ro ∈ getRunOrders st rid := hmem_ros ro hro hroid
    have hB : ¬((getRunOrders st rid).isEmpty = true) := by
      intro hE
      rw [List.isEmpty_iff.mp hE] at hmem
      exact absurd hmem (List.not_mem_nil ro)
    rw [completeRun_eq, if_neg hB] at ho
    exact foldl_updateOrderStatus_sets (fun ro2 : RunOrderRec => ro2.order_id)
      "delivered" none now o.order_id (getRunOrders st rid) _
      ⟨ro, hmem, hrooid⟩ o ho rfl
  · -- cancel_run: run row
    intro r hr hid
    rw [cancelRun_runs] at hr
    obtain ⟨r0, hr0, rfl⟩ := List.mem_map.mp hr
    by_cases hc : r0.run_id = rid
    · rw [if_pos hc]
    · rw [if_neg hc] at hid
      exact absurd hid hc
  · -- cancel_run: member orders
    rintro o ho ⟨ro, hro, hroid, hrooid⟩
    have hmem : ro ∈ getRunOrders st rid := hmem_ros ro hro hroid
    have hB : ¬((getRunOrders st rid).isEmpty = true) := by
      intro hE
      rw [List.isEmpty_iff.mp hE] at hmem
      exact absurd hmem (List.not_mem_nil ro)
    rw [cancelRun_eq, if_neg hB] at ho
    exact foldl_updateOrderStatus_sets (fun ro2 : RunOrderRec => ro2.order_id)
      "pending" none now o.order_id (getRunOrders st rid) _
      ⟨ro, hmem, hrooid⟩ o ho rfl

/-- Concrete instantiation of `run_completion_and_cancellation_cascade`
on a one-run, one-order linked store. -/
theorem run_completion_and_cancellation_cascade_witness :
    completedLinkedRun.status = "completed" ∧
    completedLinkedRun.completed = (completedLinkedRun.total_stops : Int) :=
  (run_completion_and_cancellation_cascade "RUN-260211-001" 9 linkedStore
    (by decide) (by decide)).1 completedLinkedRun (by decide) (by decide)

/-- C7 counterexample.  A driver stop update (`update_stop_status` with
`status='inProgress'`) on an order whose stored status is `delivered`
moves it back to `in_transit` — a status change of a delivered order
that is not the run-cancellation cascade, so `delivered` is not
terminal. -/
theorem delivered_status_overwritten_by_stop_update :
    deliveredOrder.status = "delivered" ∧
    updateStopStatusWeb "SMC-777" (some "inProgress") "" none none 9 deliveredStore
      = some { deliveredStore with
                 orders := [{ deliveredOrder with
                                status := "in_transit",
                                updated_at := 9 }] } := by
  exact ⟨rfl, by decide⟩

/-- C7 as amended.  The store enforces no terminality:
`update_order_status` and the driver stop update write the requested
status unconditionally, so an order whose status is `delivered` or
`failed` can still be re-statused — allocation sets it to `allocated`
and a driver stop update sets it to `in_transit` — not only the
run-cancellation cascade. -/
theorem order_terminal_status_not_enforced (st : Store) (oid dn : String) (now : Nat)
    (hterm : ∃ o ∈ st.orders, o.order_id = oid ∧
      (o.status = "delivered" ∨ o.status = "failed")) :
    (∀ o ∈ (allocateOrder oid dn now st).orders, o.order_id = oid →
      o.status = "allocated") ∧
    (∀ st2, updateStopStatusWeb oid (some "inProgress") "" none none now st = some st2 →
      ∀ o ∈ st2.orders, o.order_id = oid → o.status = "in_transit") := by
  constructor
  · exact updateOrderStatus_status oid "allocated" (some dn) now st
  · intro st2 hst2 o ho hid
    simp only [updateStopStatusWeb, Option.isSome_some, Option.isSome_none,
      Bool.false_or] at hst2
    rw [if_neg (by simp)] at hst2
    injection hst2 with hst2
    subst hst2
    simp only [List.mem_map] at ho
    obtain ⟨p, hp, rfl⟩ := ho
    by_cases hc : p.order_id = oid
    · simp [hc, mobileStatusMap]
    · simp only [if_neg hc] at hid ⊢
      exact absurd hid hc

/-- Concrete instantiation of `order_terminal_status_not_enforced` on a
store holding one delivered order. -/
theorem order_terminal_status_not_enforced_witness :
    allocatedOrder777.status = "allocated" :=
  (order_terminal_status_not_enforced deliveredStore "SMC-777" "Dave" 9
    (by decide)).1 allocatedOrder777 (by decide) (by decide)

theorem getApiLog_recent (st : Store) :
    getApiLog st = (st.apiLog.drop (st.apiLog.length - 100)).reverse := by
  unfold getApiLog
  have h := @List.reverse_take ApiLogRec st.apiLog.reverse 100
  rw [List.reverse_reverse, List.length_reverse] at h
  calc st.apiLog.reverse.take 100
      = ((st.apiLog.reverse.take 100).reverse).reverse := (List.reverse_reverse _).symm
    _ = (st.apiLog.drop (st.apiLog.length - 100)).reverse := by rw [h]

/-- C8 counterexample.  The Postgres backend's `log_api_call` stores
the response body verbatim: a 3000-character body is stored with all
3000 characters, exceeding the 2000-character bound the SQLite backend
enforces — so "both store backends truncate" is false. -/
theorem postgres_log_not_truncated :
    (logApiCallPG 1 "CancelSalesOrder" "http://wms/CancelSalesOrder/"
        ("Cancel order SMC-12345").data true (some 500)
        (some (List.replicate 3000 'x')) none Store.empty).apiLog.map
      ApiLogRec.response_body = [some (List.replicate 3000 'x')] ∧
    (List.replicate 3000 'x').length = 3000 ∧ 2000 < 3000 := by
  refine ⟨rfl, ?_, by norm_num⟩
  rw [List.length_replicate]

/-- C8 as amended.  The SQLite backend's `log_api_call` truncates the
request summary to 500 characters and the response body to 2000; the
Postgres backend stores both untruncated; on either backend
`get_api_log` returns at most 100 records — exactly the most recently
appended ones, newest first (descending timestamps whenever the log was
appended in timestamp order). -/
theorem api_log_truncation_and_recent_window (now : Nat)
    (operation endpoint : String) (summary : List Char) (success : Bool)
    (code : Option Int) (body : Option (List Char)) (err : Option String)
    (st : Store) :
    (∃ rec, (logApiCall now operation endpoint summary success code body err
        st).apiLog = st.apiLog ++ [rec] ∧
      (∀ s, rec.request_summary = some s → s.length ≤ 500) ∧
      (∀ b, rec.response_body = some b → b.length ≤ 2000)) ∧
    (∃ rec, (logApiCallPG now operation endpoint summary success code body err
        st).apiLog = st.apiLog ++ [rec] ∧
      rec.request_summary = some summary ∧ rec.response_body = body) ∧
    (getApiLog st).length ≤ 100 ∧
    getApiLog st = (st.apiLog.drop (st.apiLog.length - 100)).reverse ∧
    (st.apiLog.Pairwise (fun a b => a.timestamp ≤ b.timestamp) →
      (getApiLog st).Pairwise (fun a b => b.timestamp ≤ a.timestamp)) := by
  refine ⟨⟨_, rfl, ?_, ?_⟩, ⟨_, rfl, rfl, rfl⟩, ?_, getApiLog_recent st, ?_⟩
  · intro s hs
    by_cases he : summary.isEmpty
    · simp [logApiCall, he] at hs
    · simp only [logApiCall, if_neg he] at hs
      cases hs
      rw [List.length_take]
      exact min_le_left _ _
  · intro b hb
    cases body with
    | none => simp [logApiCall] at hb
    | some b0 =>
        by_cases he : b0.isEmpty
        · simp [logApiCall, he] at hb
        · simp only [logApiCall, if_neg he] at hb
          cases hb
          rw [List.length_take]
          exact min_le_left _ _
  · show (st.apiLog.reverse.take 100).length ≤ 100
    rw [List.length_take]
    exact min_le_left _ _
  · intro hmono
    show ((st.apiLog.reverse.take 100).Pairwise fun a b => b.timestamp ≤ a.timestamp)
    refine List.Pairwise.sublist (List.take_sublist _ _) ?_
    rw [List.pairwise_reverse]
    exact hmono

/-- Concrete instantiation of `api_log_truncation_and_recent_window`:
a timestamp-ordered two-record log reads back newest-first. -/
theorem api_log_truncation_and_recent_window_witness :
    (getApiLog logStore).Pairwise (fun a b => b.timestamp ≤ a.timestamp) :=
  (api_log_truncation_and_recent_window 5 "TestConnection" "http://wms" [] true
    none none none logStore).2.2.2.2 (by decide)

theorem find?_append_right {α : Type} (p : α → Bool) :
    ∀ (l1 l2 : List α), (∀ x ∈ l1, p x = false) → (l1 ++ l2).find? p = l2.find? p := by
  intro l1
  induction l1 with
  | nil => intro l2 _; rfl
  | cons x rest ih =>
      intro l2 h
      show (x :: (rest ++ l2)).find? p = l2.find? p
      rw [List.find?_cons_of_neg]
      · exact ih l2 fun y hy => h y (List.mem_cons_of_mem _ hy)
      · simp [h x (List.mem_cons_self _ _)]

/-- C5 counterexample.  Save a token expiring at 5, restart the process
(cache emptied, durable store intact), then validate at time 10: the
attempt is rejected, but the expired row is NOT deleted from the
durable store — the lazy purge the claim asserts does not happen on the
store-only path. -/
theorem expired_store_token_not_purged_on_validation :
    (requireAuthWeb 10 "T1" expiredTokState).1
        = .denied "Unauthorized" "Invalid or expired token" ∧
    (requireAuthWeb 10 "T1" expiredTokState).2 = expiredTokState ∧
    expiredTokState.store.map TokenRec.token = ["T1"] ∧
    expiredTokState.store.map TokenRec.expires = [5] ∧ 5 < 10 := by
  decide

/-- C5 as amended.  Validation authorizes iff the token is nonempty and
either the durable store holds it with `expires_at` strictly later than
now, or — falling back — the process cache holds it with `expires_at ≥
now`.  A token with a fresh random value is valid immediately after
creation and invalid immediately after revocation.  An expired token is
deleted by validation only when it is served from the process cache;
when only the durable store holds it, validation rejects but leaves the
row in place (state unchanged) for the eager purge at login. -/
theorem driver_token_validation_semantics (now : Nat) (tok : String) (s : TokState) :
    ((∃ d p, (requireAuthWeb now tok s).1 = .ok d p) ↔
      (tok ≠ "" ∧
        ((∃ r, getDriverToken now tok s.store = some r) ∨
         (getDriverToken now tok s.store = none ∧
          ∃ r, memLookup tok s.mem = some r ∧ now ≤ r.expires)))) ∧
    (∀ did phone e, tok ≠ "" → now < e → (∀ r ∈ s.store, r.token ≠ tok) →
      (requireAuthWeb now tok (saveToken tok did phone e s)).1 = .ok did phone) ∧
    (tok ≠ "" →
      (requireAuthWeb now tok (deleteToken tok s)).1
        = .denied "Unauthorized" "Invalid or expired token") ∧
    (∀ r, tok ≠ "" → getDriverToken now tok s.store = none →
      memLookup tok s.mem = some r → r.expires < now →
      (requireAuthWeb now tok s).1 = .denied "Unauthorized" "Token expired" ∧
      ∀ r2 ∈ (requireAuthWeb now tok s).2.store, r2.token ≠ tok) ∧
    (tok ≠ "" → getDriverToken now tok s.store = none → memLookup tok s.mem = none →
      (requireAuthWeb now tok s).1 = .denied "Unauthorized" "Invalid or expired token" ∧
      (requireAuthWeb now tok s).2 = s) := by
  refine ⟨?_, ?_, ?_, ?_, ?_⟩
  · by_cases h0 : tok = ""
    · subst h0
      simp [requireAuthWeb]
    · cases hs : getDriverToken now tok s.store with
      | some r =>
          have hp := List.find?_some hs
          simp only [Bool.and_eq_true, beq_iff_eq, decide_eq_true_eq] at hp
          have hnl : ¬(r.expires < now) := by omega
          simp only [requireAuthWeb, if_neg h0, getToken, hs, if_neg hnl]
          constructor
          · intro _
            exact ⟨h0, Or.inl ⟨r, rfl⟩⟩
          · intro _
            exact ⟨r.driver_id, r.phone, rfl⟩
      | none =>
          cases hm : memLookup tok s.mem with
          | none =>
              simp only [requireAuthWeb, if_neg h0, getToken, hs, hm]
              constructor
              · rintro ⟨d, p, hdp⟩
                exact absurd hdp (by simp)
              · rintro ⟨-, hor⟩
                rcases hor with ⟨r, hr⟩ | ⟨-, r, hr, -⟩
                · exact absurd hr (by simp)
                · exact absurd hr (by simp)
          | some r =>
              by_cases hex : r.expires < now
              · simp only [requireAuthWeb, if_neg h0, getToken, hs, hm, if_pos hex]
                constructor
                · rintro ⟨d, p, hdp⟩
                  exact absurd hdp (by simp)
                · rintro ⟨-, hor⟩
                  rcases hor with ⟨r2, hr2⟩ | ⟨-, r2, hr2, hle⟩
                  · exact absurd hr2 (by simp)
                  · injection hr2 with hr2
                    subst hr2
                    exact absurd hex (by omega)
              · simp only [requireAuthWeb, if_neg h0, getToken, hs, hm, if_neg hex]
                constructor
                · intro _
                  exact ⟨h0, Or.inr ⟨trivial, r, rfl, by omega⟩⟩
                · intro _
                  exact ⟨r.driver_id, r.phone, rfl⟩
  · intro did phone e h0 hlt hfresh
    have hstore : saveDriverTokenRow ⟨tok, did, phone, e⟩ s.store
        = s.store ++ [⟨tok, did, phone, e⟩] := by
      unfold saveDriverTokenRow
      rw [if_neg]
      simp only [List.any_eq_true, beq_iff_eq, not_exists]
      intro r
      rintro ⟨hr, hrt⟩
      exact hfresh r hr hrt
    have hfind : getDriverToken now tok (s.store ++ [⟨tok, did, phone, e⟩])
        = some ⟨tok, did, phone, e⟩ := by
      unfold getDriverToken
      rw [find?_append_right]
      · simp [hlt]
      · intro r hr
        have : r.token ≠ tok := hfresh r hr
        simp [this]
    have hnl : ¬(e < now) := by omega
    simp only [requireAuthWeb, if_neg h0, getToken, saveToken, hstore, hfind, if_neg hnl]
  · intro h0
    have h1 : getDriverToken now tok (deleteDriverTokenRow tok s.store) = none := by
      unfold getDriverToken deleteDriverTokenRow
      rw [List.find?_eq_none]
      intro r hr
      rw [List.mem_filter] at hr
      have : (r.token == tok) = false := by
        cases hbe : (r.token == tok)
        · rfl
        · rw [hbe] at hr; simp at hr
      simp [this]
    have h2 : memLookup tok (s.mem.filter fun r => !(r.token == tok)) = none := by
      unfold memLookup
      rw [List.find?_eq_none]
      intro r hr
      rw [List.mem_filter] at hr
      cases hbe : (r.token == tok)
      · simp
      · rw [hbe] at hr; simp at hr
    simp only [requireAuthWeb, if_neg h0, getToken, deleteToken, h1, h2]
  · intro r h0 hsn hm hex
    constructor
    · simp only [requireAuthWeb, if_neg h0, getToken, hsn, hm, if_pos hex]
    · intro r2 hr2
      simp only [requireAuthWeb, if_neg h0, getToken, hsn, hm, if_pos hex,
        deleteToken, deleteDriverTokenRow] at hr2
      rw [List.mem_filter] at hr2
      intro hc
      rw [show (r2.token == tok) = true from by simp [hc]] at hr2
      simp at hr2
  · intro h0 hsn hm
    refine ⟨?_, ?_⟩
    · simp only [requireAuthWeb, if_neg h0, getToken, hsn, hm]
    · simp only [requireAuthWeb, if_neg h0, getToken, hsn, hm]

/-- Concrete instantiation of `driver_token_validation_semantics`:
revoking the surviving token makes the next validation reject it. -/
theorem driver_token_validation_semantics_witness :
    (requireAuthWeb 10 "T1" (deleteToken "T1" expiredTokState)).1
      = .denied "Unauthorized" "Invalid or expired token" :=
  (driver_token_validation_semantics 10 "T1" expiredTokState).2.2.1 (by decide)

/-- C9 counterexample.  Against the same token table, an
expired-but-present token draws the 401 body `Token expired` while a
nonexistent token draws `Invalid or missing token`: the two bodies
differ, so a caller can tell whether the token existed. -/
theorem auth_error_bodies_distinguish_token_state :
    (memLookup "TOK-A" staleMem).isSome = true ∧
    memLookup "TOK-B" staleMem = none ∧
    (requireAuthDriver 10 "TOK-A" staleMem).1
        = .denied "Unauthorized" "Token expired" ∧
    (requireAuthDriver 10 "TOK-B" staleMem).1
        = .denied "Unauthorized" "Invalid or missing token" ∧
    (requireAuthDriver 10 "TOK-A" staleMem).1
        ≠ (requireAuthDriver 10 "TOK-B" staleMem).1 := by
  decide

/-- C9 as amended.  The 401 bodies are not uniform: a token still held
by the process token map but expired yields `Token expired`, a token
not in the map yields `Invalid or missing token`, and these bodies
differ; only on the WebPlatform store path — where the expired token
has already been filtered out by the SQL lookup and is absent from the
cache — does an expired token draw the same `Invalid or expired token`
body as a nonexistent one. -/
theorem auth_failure_message_partially_leaks (now : Nat) (tok : String)
    (mem : List TokenRec) (s : TokState) :
    (∀ r, tok ≠ "" → memLookup tok mem = some r → r.expires < now →
      (requireAuthDriver now tok mem).1 = .denied "Unauthorized" "Token expired") ∧
    (memLookup tok mem = none →
      (requireAuthDriver now tok mem).1
        = .denied "Unauthorized" "Invalid or missing token") ∧
    (AuthResult.denied "Unauthorized" "Token expired"
      ≠ AuthResult.denied "Unauthorized" "Invalid or missing token") ∧
    (tok ≠ "" → getDriverToken now tok s.store = none → memLookup tok s.mem = none →
      (requireAuthWeb now tok s).1
        = .denied "Unauthorized" "Invalid or expired token") := by
  refine ⟨?_, ?_, by decide, ?_⟩
  · intro r h0 hm hex
    simp only [requireAuthDriver, if_neg h0, hm, if_pos hex]
  · intro hm
    by_cases h0 : tok = ""
    · simp only [requireAuthDriver, if_pos h0]
    · simp only [requireAuthDriver, if_neg h0, hm]
  · intro h0 hsn hm
    simp only [requireAuthWeb, if_neg h0, getToken, hsn, hm]

/-- Concrete instantiation of `auth_failure_message_partially_leaks` on
the stale one-token cache. -/
theorem auth_failure_message_partially_leaks_witness :
    (requireAuthDriver 10 "TOK-A" staleMem).1
      = .denied "Unauthorized" "Token expired" :=
  (auth_failure_message_partially_leaks 10 "TOK-A" staleMem TokState.empty).1
    ⟨"TOK-A", "DRV-101", "0412345678", 5⟩ (by decide) (by decide) (by decide)

end Warex
